import Mathlib

/-!
Shallow embedding of `airbyte_cdk/sources/streams/http/http_client.py`
(class `HttpClient`): request preparation (query-parameter dedupe, body
selection), the per-attempt `_send` logic (outcome classification,
backoff-time selection, message construction, attempt-count bookkeeping),
the limit resolution of `_send_with_retry`, and a retry loop modelled
from the spec for the parts of the repository (the backoff handlers of
`rate_limiting.py`) that are not in the excerpt.

Machine integers are modelled as `Int`/`Nat`; Python `Optional` values
are `Option`; Python truthiness is made explicit wherever the source
relies on it (`if json and data`, `if backoff_time`, `if response`).
-/

namespace HttpClientModel

/-- An HTTP response as far as this layer inspects it: `status_code` and
the decoded body text (`response.text`). Headers are not examined by the
embedded code paths. -/
structure Response where
  status_code : Nat
  body : String
deriving DecidableEq, Repr

/-- `requests.Response.raise_for_status` raises exactly for client errors
(400-499) and server errors (500-599). -/
def raiseForStatusError (r : Response) : Bool :=
  400 ≤ r.status_code && r.status_code < 600

/-- Python truthiness of a `requests.Response` object: `bool(response)` is
`response.ok`, which is true iff `raise_for_status` would not raise. -/
def Response.truthy (r : Response) : Bool :=
  !raiseForStatusError r

/-- Truthiness of the `Optional[requests.Response]` local in `_send`:
`None` is falsy, a response defers to `Response.truthy`. -/
def responseTruthy : Option Response → Bool
  | some r => r.truthy
  | none => false

/-- The outcome of one transport call (`self._session.send`): either a
`Response` or the text of a raised `requests.RequestException`. -/
abbrev TransportOutcome := Sum Response String

/-- `ResponseAction` of the error-handler package. -/
inductive ResponseAction
  | SUCCESS
  | FAIL
  | IGNORE
  | RETRY
deriving DecidableEq, Repr

/-- `FailureType` attached to an `ErrorResolution`. -/
inductive FailureType
  | config_error
  | transient_error
  | system_error
deriving DecidableEq, Repr

/-- `ErrorResolution` returned by `ErrorHandler.interpret_response`. -/
structure ErrorResolution where
  response_action : ResponseAction
  failure_type : Option FailureType
  error_message : Option String
deriving DecidableEq, Repr

/-- An `ErrorHandler`: its classification function plus the optional
`max_retries` / `max_time` overrides. The source probes these with
`hasattr(h, f) and h.f is not None`; both the missing-attribute case and
the `None` case are `none` here, which the probe treats identically. -/
structure ErrorHandler where
  interpret_response : TransportOutcome → ErrorResolution
  max_retries : Option Int
  max_time : Option Int

/-- A `BackoffStrategy`: `backoff_time(response_or_exception,
attempt_count)` plus the optional `max_retries` / `max_time` / `factor`
overrides, encoded as for `ErrorHandler`. -/
structure BackoffStrategy where
  backoff_time : TransportOutcome → Nat → Option Int
  max_retries : Option Int
  max_time : Option Int
  factor : Option Int

/-- The fields of `HttpClient` exercised by the embedded code paths.
`parse_response_error_message` stands for the same-named method of the
error-message parsing collaborator held by the client;
`debugEnabled` models `self._logger.isEnabledFor(logging.DEBUG)`. -/
structure HttpClient where
  error_handler : ErrorHandler
  backoff_strategies : List BackoffStrategy
  parse_response_error_message : Response → String
  debugEnabled : Bool

def DEFAULT_MAX_RETRY : Int := 5
def DEFAULT_RETRY_FACTOR : Int := 5
def DEFAULT_MAX_TIME : Int := 60 * 10

/-! ### Query-string parsing (model of `urllib.parse`) -/

/-- `str.split(sep)` on the underlying character list (structural, so it
evaluates in the kernel): splitting an empty string yields one empty
field, as in Python. -/
def splitChar (sep : Char) : List Char → List (List Char)
  | [] => [[]]
  | c :: rest =>
    let r := splitChar sep rest
    if c = sep then [] :: r
    else
      match r with
      | [] => [[c]]
      | h :: t => (c :: h) :: t

def pySplit (sep : Char) (s : String) : List String :=
  (splitChar sep s.data).map String.mk

def joinWith (sep : String) (parts : List String) : String :=
  String.mk (List.intercalate sep.data (parts.map String.data))

/-- `str.upper()` restricted to ASCII. -/
def pyUpper (s : String) : String :=
  String.mk (s.data.map Char.toUpper)

def hexVal (c : Char) : Option Nat :=
  if '0' ≤ c ∧ c ≤ '9' then some (c.toNat - '0'.toNat)
  else if 'a' ≤ c ∧ c ≤ 'f' then some (c.toNat - 'a'.toNat + 10)
  else if 'A' ≤ c ∧ c ≤ 'F' then some (c.toNat - 'A'.toNat + 10)
  else none

/-- ASCII model of `urllib.parse.unquote_plus` on a character list:
`+` becomes a space, `%hh` with two hex digits becomes the character of
that code point, and an invalid escape is left literal. -/
def unquotePlusAux : List Char → List Char
  | [] => []
  | '+' :: rest => ' ' :: unquotePlusAux rest
  | '%' :: a :: b :: rest2 =>
    match hexVal a, hexVal b with
    | some x, some y => Char.ofNat (16 * x + y) :: unquotePlusAux rest2
    | _, _ => '%' :: unquotePlusAux (a :: b :: rest2)
  | c :: rest => c :: unquotePlusAux rest

def unquote_plus (s : String) : String :=
  String.mk (unquotePlusAux s.data)

/-- Model of `urllib.parse.parse_qsl(qs)` with default arguments: split
on `&`, skip fields without `=` or with an empty value, unquote keys and
values. (`field.split('=', 1)` is recovered by re-joining the tail.) -/
def parse_qsl (qs : String) : List (String × String) :=
  (pySplit '&' qs).filterMap (fun field =>
    match pySplit '=' field with
    | [] => none
    | [_] => none
    | k :: rest =>
      let v := joinWith "=" rest
      if v = "" then none else some (unquote_plus k, unquote_plus v))

/-- First value recorded for a key: `parse_qs` groups values per key and
`_dedupe_query_params` keeps `v[0]`, i.e. the first occurrence. Also the
lookup of a Python `Mapping` modelled as an association list. -/
def lookup1 : List (String × String) → String → Option String
  | [], _ => none
  | kv :: rest, k => if kv.1 = k then some kv.2 else lookup1 rest k

/-- `urllib.parse.urlparse(url).query`: the fragment is cut at the first
`#` first, then the query is everything after the first `?`. -/
def urlQuery (url : String) : String :=
  let noFrag := ((pySplit '#' url).headD url)
  match pySplit '?' noFrag with
  | [] => ""
  | [_] => ""
  | _ :: rest => joinWith "?" rest

/-- Python `str()` applied to `params.get(k)`: a missing key prints as
`"None"`. -/
def pyStrOpt : Option String → String
  | some s => s
  | none => "None"

/-! ### Request preparation -/

/-- `HttpClient._dedupe_query_params`: drop from `params` every key `k`
that appears in the URL query string with first value equal (as a string)
to `params.get(k)`. -/
def dedupe_query_params (url : String) (params : Option (List (String × String))) :
    List (String × String) :=
  let ps := params.getD []
  let qd := parse_qsl (urlQuery url)
  ps.filter (fun kv =>
    match lookup1 qd kv.1 with
    | some w => !(pyStrOpt (lookup1 ps kv.1) = w : Bool)
    | none => true)

/-- A request body (`json` or `data` argument), modelled as a mapping.
Python truthiness: `None` and the empty mapping are falsy. -/
abbrev Body := List (String × String)

def pyTruthy : Option Body → Bool
  | some l => !l.isEmpty
  | none => false

/-- `BODY_REQUEST_METHODS` from the source. -/
def BODY_REQUEST_METHODS : List String := ["GET", "POST", "PUT", "PATCH"]

/-- `RequestBodyException` raised by `_create_prepared_request` when both
body encodings are supplied (message text elided). -/
inductive PrepareError
  | requestBody
deriving DecidableEq, Repr

/-- The argument record handed to `requests.Request(**args)`; the prepared
request as far as this layer determines it. -/
structure PRequest where
  method : String
  url : String
  headers : Option (List (String × String))
  params : List (String × String)
  json : Option Body
  data : Option Body
deriving DecidableEq, Repr

/-- `HttpClient._create_prepared_request`: dedupe the query parameters if
asked, then attach at most one body — and only for methods in
`BODY_REQUEST_METHODS`, where supplying both `json` and `data` (truthy)
raises `RequestBodyException`. -/
def create_prepared_request (http_method url : String) (dedupe : Bool)
    (headers : Option (List (String × String))) (params : Option (List (String × String)))
    (json data : Option Body) : Except PrepareError PRequest :=
  let query_params := if dedupe then dedupe_query_params url params else params.getD []
  if pyUpper http_method ∈ BODY_REQUEST_METHODS then
    if pyTruthy json && pyTruthy data then
      Except.error PrepareError.requestBody
    else if pyTruthy json then
      Except.ok ⟨http_method, url, headers, query_params, json, none⟩
    else if pyTruthy data then
      Except.ok ⟨http_method, url, headers, query_params, none, data⟩
    else
      Except.ok ⟨http_method, url, headers, query_params, none, none⟩
  else
    Except.ok ⟨http_method, url, headers, query_params, none, none⟩

/-! ### Attempt-count bookkeeping (`self._request_attempt_count`) -/

/-- The instance-level dict `self._request_attempt_count`, keyed by the
identity of the `requests.PreparedRequest` object (the class defines no
`__eq__`/`__hash__`). Object identities are modelled as `Nat` ids. -/
abbrev AttemptMap := List (Nat × Nat)

def lookupCount : AttemptMap → Nat → Option Nat
  | [], _ => none
  | kv :: rest, id => if kv.1 = id then some kv.2 else lookupCount rest id

/-- `if request not in d: d[request] = 1 else: d[request] += 1`. -/
def bump (st : AttemptMap) (id : Nat) : AttemptMap :=
  match lookupCount st id with
  | none => st ++ [(id, 1)]
  | some _ => st.map (fun kv => if kv.1 = id then (kv.1, kv.2 + 1) else kv)

/-- The value `self._request_attempt_count[request]` read back just after
the update at the top of `_send`. -/
def countAfter (st : AttemptMap) (id : Nat) : Nat :=
  match lookupCount st id with
  | none => 1
  | some n => n + 1

/-! ### `_send`: one attempt -/

/-- The structured content of the messages `_send` builds with f-strings;
each constructor records which format branch was taken and the data it
interpolates. -/
inductive ErrMsg
  | failStatus (method url : String) (status : Nat) (parsed : String)
  | failExc (method url : String) (exc : Option String)
  | ignoreStatus (method url : String) (status : Nat)
  | ignoreExc (method url : String) (exc : Option String)
  | retryGeneric (url : String) (ft : Option FailureType)
deriving DecidableEq, Repr

/-- `error_resolution.error_message or <generated>`: Python `or`
truthiness, so a `None` or empty handler message falls back to the
generated message. -/
def effectiveMessage (handlerMsg : Option String) (generated : ErrMsg) :
    Sum String ErrMsg :=
  match handlerMsg with
  | some s => if s = "" then Sum.inr generated else Sum.inl s
  | none => Sum.inr generated

inductive LogLevel
  | debug
  | info
  | error
deriving DecidableEq, Repr

inductive LogMsg
  | outboundRequest (url : String)
  | receivingResponse (status : Nat)
  | text (s : String)
  | msg (m : Sum String ErrMsg)
deriving DecidableEq, Repr

/-- What one call to `_send` does, besides updating the attempt map and
logging: return a response (`ok`, possibly `None`), raise
`AirbyteTracedException` (`failTerminal`, carrying the internal message,
the handler message and the failure type), raise
`UserDefinedBackoffException` (`retryUser`) or `DefaultBackoffException`
(`retryDefault`), or let `raise_for_status` raise (`httpError`). -/
inductive SendResult
  | ok (r : Option Response)
  | failTerminal (internal : ErrMsg) (handlerMsg : Option String) (ft : Option FailureType)
  | retryUser (backoff : Int) (message : Sum String ErrMsg) (ft : Option FailureType)
  | retryDefault (message : Sum String ErrMsg) (ft : Option FailureType)
  | httpError (status : Nat) (body : String)
deriving DecidableEq, Repr

structure SendStep where
  result : SendResult
  state : AttemptMap
  logs : List (LogLevel × LogMsg)
deriving DecidableEq, Repr

/-- The for-loop over `self._backoff_strategies` in the RETRY branch:
the first `backoff_time(...)` result that is Python-truthy (not `None`
and not zero) is kept. -/
def chooseCustomBackoff (strategies : List BackoffStrategy)
    (oe : TransportOutcome) (attempt_count : Nat) : Option Int :=
  match strategies with
  | [] => none
  | s :: rest =>
    match s.backoff_time oe attempt_count with
    | some t => if t ≠ 0 then some t else chooseCustomBackoff rest oe attempt_count
    | none => chooseCustomBackoff rest oe attempt_count

/-- `HttpClient._send`, for one transport outcome: bump the attempt count,
classify via the error handler, and dispatch on the response action. The
`if response:` tests translate to `responseTruthy` (Python truthiness of
a `requests.Response`, i.e. `response.ok`), exactly as the source
evaluates them. -/
def send_one (c : HttpClient) (st : AttemptMap) (reqId : Nat) (req : PRequest)
    (o : TransportOutcome) : SendStep :=
  let st' := bump st reqId
  let count := countAfter st reqId
  let response? : Option Response := o.getLeft?
  let exc? : Option String := o.getRight?
  let res := c.error_handler.interpret_response o
  let logs1 := [(LogLevel.debug, LogMsg.outboundRequest req.url)] ++
    (if c.debugEnabled then
      (match response? with
       | some r => [(LogLevel.debug, LogMsg.receivingResponse r.status_code)]
       | none => [])
     else [])
  let branch : SendResult × List (LogLevel × LogMsg) :=
    if res.response_action = ResponseAction.FAIL then
      let internal :=
        if responseTruthy response? then
          match response? with
          | some r => ErrMsg.failStatus req.method req.url r.status_code (c.parse_response_error_message r)
          | none => ErrMsg.failExc req.method req.url exc?
        else ErrMsg.failExc req.method req.url exc?
      (SendResult.failTerminal internal res.error_message res.failure_type, [])
    else if res.response_action = ResponseAction.IGNORE then
      let generated :=
        if responseTruthy response? then
          match response? with
          | some r => ErrMsg.ignoreStatus req.method req.url r.status_code
          | none => ErrMsg.ignoreExc req.method req.url exc?
        else ErrMsg.ignoreExc req.method req.url exc?
      (SendResult.ok response?,
        [(LogLevel.info, LogMsg.msg (effectiveMessage res.error_message generated))])
    else if res.response_action = ResponseAction.RETRY then
      let custom := chooseCustomBackoff c.backoff_strategies o count
      let message := effectiveMessage res.error_message (ErrMsg.retryGeneric req.url res.failure_type)
      match custom with
      | some d => (SendResult.retryUser d message res.failure_type, [])
      | none => (SendResult.retryDefault message res.failure_type, [])
    else
      match response? with
      | some r =>
        if r.truthy then
          if raiseForStatusError r then
            (SendResult.httpError r.status_code r.body, [(LogLevel.error, LogMsg.text r.body)])
          else (SendResult.ok (some r), [])
        else (SendResult.ok (some r), [])
      | none => (SendResult.ok none, [])
  ⟨branch.1, st', logs1 ++ branch.2⟩

/-! ### Limit resolution (`_send_with_retry`) -/

/-- The for-loop with `break` scanning the backoff strategies for the
first non-`None` `max_retries`. -/
def firstStrategyMaxRetries : List BackoffStrategy → Option Int
  | [] => none
  | s :: rest =>
    match s.max_retries with
    | some v => some v
    | none => firstStrategyMaxRetries rest

def firstStrategyMaxTime : List BackoffStrategy → Option Int
  | [] => none
  | s :: rest =>
    match s.max_time with
    | some v => some v
    | none => firstStrategyMaxTime rest

def firstStrategyFactor : List BackoffStrategy → Option Int
  | [] => none
  | s :: rest =>
    match s.factor with
    | some v => some v
    | none => firstStrategyFactor rest

/-- `max_retries` as `_send_with_retry` resolves it: the error handler's
override if present, else the first strategy override, else the default. -/
def resolve_max_retries (c : HttpClient) : Int :=
  match c.error_handler.max_retries with
  | some v => v
  | none =>
    match firstStrategyMaxRetries c.backoff_strategies with
    | some v => v
    | none => DEFAULT_MAX_RETRY

def resolve_max_time (c : HttpClient) : Int :=
  match c.error_handler.max_time with
  | some v => v
  | none =>
    match firstStrategyMaxTime c.backoff_strategies with
    | some v => v
    | none => DEFAULT_MAX_TIME

/-- `factor`: only the strategies are consulted (the error handler has no
factor override in the source). -/
def resolve_factor (c : HttpClient) : Int :=
  match firstStrategyFactor c.backoff_strategies with
  | some v => v
  | none => DEFAULT_RETRY_FACTOR

/-- `max_tries = max(0, max_retries) + 1`. -/
def resolved_max_tries (c : HttpClient) : Nat :=
  (max 0 (resolve_max_retries c)).toNat + 1

/-! ### The retry loop -/

/-- Outcome of the whole retry sequence for one logical request. -/
inductive LoopResult
  | success (r : Option Response)
  | terminal (message : Sum String ErrMsg) (ft : Option FailureType)
  | httpFailure (status : Nat) (body : String)
  | exhausted
deriving DecidableEq, Repr

structure RunResult where
  result : LoopResult
  state : AttemptMap
  attempts : Nat
  sleeps : List Int
deriving DecidableEq, Repr

/-- Modelled from the spec: the retry loop realised in the source by the
`backoff` decorators of `rate_limiting.py` (`user_defined_backoff_handler`
and `http_client_default_backoff_handler`), which are not part of the
excerpt. Spec section 4.1: on a RETRY outcome, sleep the strategy-chosen
delay (`UserDefinedBackoffException`) or the exponential fallback
`factor * 2^(attempt-1)` (`DefaultBackoffException`); stop retrying and
raise the terminal error when `attempt == max_tries` or the projected
sleep would exceed the remaining `max_time` budget. Each list element of
`outcomes` is the transport result of one attempt; `attempts` counts the
network attempts made. -/
def runRetries (c : HttpClient) (reqId : Nat) (req : PRequest)
    (maxTries : Nat) (maxTime factor : Int) :
    Nat → Int → AttemptMap → List TransportOutcome → RunResult
  | _, _, st, [] => ⟨LoopResult.exhausted, st, 0, []⟩
  | attempt, slept, st, o :: rest =>
    let step := send_one c st reqId req o
    match step.result with
    | SendResult.ok r => ⟨LoopResult.success r, step.state, 1, []⟩
    | SendResult.failTerminal internal hm ft =>
      ⟨LoopResult.terminal (effectiveMessage hm internal) ft, step.state, 1, []⟩
    | SendResult.httpError s b => ⟨LoopResult.httpFailure s b, step.state, 1, []⟩
    | SendResult.retryUser d message ft =>
      if attempt = maxTries ∨ maxTime < slept + d then
        ⟨LoopResult.terminal message ft, step.state, 1, []⟩
      else
        let rr := runRetries c reqId req maxTries maxTime factor
          (attempt + 1) (slept + d) step.state rest
        ⟨rr.result, rr.state, rr.attempts + 1, d :: rr.sleeps⟩
    | SendResult.retryDefault message ft =>
      let d := factor * 2 ^ (attempt - 1)
      if attempt = maxTries ∨ maxTime < slept + d then
        ⟨LoopResult.terminal message ft, step.state, 1, []⟩
      else
        let rr := runRetries c reqId req maxTries maxTime factor
          (attempt + 1) (slept + d) step.state rest
        ⟨rr.result, rr.state, rr.attempts + 1, d :: rr.sleeps⟩

/-- `HttpClient._send_with_retry`: resolve the limits once, then run the
(spec-modelled) bounded retry loop starting at attempt 1. -/
def send_with_retry (c : HttpClient) (st : AttemptMap) (reqId : Nat) (req : PRequest)
    (outcomes : List TransportOutcome) : RunResult :=
  runRetries c reqId req (resolved_max_tries c) (resolve_max_time c) (resolve_factor c)
    1 0 st outcomes

deriving instance DecidableEq for Except

structure SendRequestResult where
  result : Except PrepareError (PRequest × LoopResult)
  state : AttemptMap
  attempts : Nat
  sleeps : List Int
deriving DecidableEq, Repr

/-- `HttpClient.send_request`: prepare the request (which may raise
`RequestBodyException` before any network call), then send it with
retries and hand back the `(request, response)` pair. -/
def send_request (c : HttpClient) (st : AttemptMap) (reqId : Nat)
    (http_method url : String) (headers params : Option (List (String × String)))
    (json data : Option Body) (dedupe : Bool)
    (outcomes : List TransportOutcome) : SendRequestResult :=
  match create_prepared_request http_method url dedupe headers params json data with
  | Except.error e => ⟨Except.error e, st, 0, []⟩
  | Except.ok req =>
    let rr := send_with_retry c st reqId req outcomes
    ⟨Except.ok (req, rr.result), rr.state, rr.attempts, rr.sleeps⟩

/-! ### Concrete fixtures for closed runs -/

/-- A status-driven error handler for concrete runs: 200 SUCCEED, 429
RETRY, any other status FAIL, transport errors RETRY. -/
def statusHandler : ErrorHandler :=
  { interpret_response := fun o =>
      match o with
      | Sum.inl r =>
        if r.status_code = 200 then ⟨ResponseAction.SUCCESS, none, none⟩
        else if r.status_code = 429 then
          ⟨ResponseAction.RETRY, some FailureType.transient_error, none⟩
        else ⟨ResponseAction.FAIL, some FailureType.system_error, none⟩
      | Sum.inr _ => ⟨ResponseAction.RETRY, some FailureType.transient_error, none⟩,
    max_retries := none, max_time := none }

def basicClient : HttpClient := ⟨statusHandler, [], fun r => r.body, false⟩

def ignoreAllHandler : ErrorHandler :=
  ⟨fun _ => ⟨ResponseAction.IGNORE, none, none⟩, none, none⟩

def ignoreClient : HttpClient := ⟨ignoreAllHandler, [], fun r => r.body, false⟩

def failAllHandler : ErrorHandler :=
  ⟨fun _ => ⟨ResponseAction.FAIL, some FailureType.system_error, none⟩, none, none⟩

def failClient : HttpClient := ⟨failAllHandler, [], fun r => r.body, false⟩

def strategyNone : BackoffStrategy := ⟨fun _ _ => none, none, none, none⟩

def strategyTen : BackoffStrategy := ⟨fun _ _ => some 10, none, none, none⟩

def strategyZero : BackoffStrategy := ⟨fun _ _ => some 0, none, none, none⟩

/-- Two strategies in declared order: the first yields no delay, the
second yields 10. -/
def twoStrategyClient : HttpClient :=
  ⟨statusHandler, [strategyNone, strategyTen], fun r => r.body, false⟩

def zeroStrategyClient : HttpClient :=
  ⟨statusHandler, [strategyZero], fun r => r.body, false⟩

def reqX : PRequest := ⟨"GET", "http://x", none, [], none, none⟩

/-! ## Lemmas and claim theorems -/

lemma firstStrategyMaxRetries_eq (l : List BackoffStrategy) :
    firstStrategyMaxRetries l = l.findSome? (fun s => s.max_retries) := by
  induction l with
  | nil => rfl
  | cons s rest ih =>
    cases h : s.max_retries <;>
      simp [firstStrategyMaxRetries, List.findSome?_cons, h, ih]

lemma firstStrategyMaxTime_eq (l : List BackoffStrategy) :
    firstStrategyMaxTime l = l.findSome? (fun s => s.max_time) := by
  induction l with
  | nil => rfl
  | cons s rest ih =>
    cases h : s.max_time <;>
      simp [firstStrategyMaxTime, List.findSome?_cons, h, ih]

lemma firstStrategyFactor_eq (l : List BackoffStrategy) :
    firstStrategyFactor l = l.findSome? (fun s => s.factor) := by
  induction l with
  | nil => rfl
  | cons s rest ih =>
    cases h : s.factor <;>
      simp [firstStrategyFactor, List.findSome?_cons, h, ih]

/-- C4: the retry limits are resolved by fixed precedence: `max_retries`
is the error handler's override if it exposes one, else the first backoff
strategy in declared order exposing one, else 5; `max_time` follows the
same precedence with default 600 seconds; `factor` is the first backoff
strategy exposing one, else 5; and `max_tries = max(max_retries, 0) + 1`. -/
theorem c4_limit_resolution (c : HttpClient) :
    resolve_max_retries c
      = ((c.error_handler.max_retries).orElse
          (fun _ => c.backoff_strategies.findSome? (fun s => s.max_retries))).getD 5
    ∧ resolve_max_time c
      = ((c.error_handler.max_time).orElse
          (fun _ => c.backoff_strategies.findSome? (fun s => s.max_time))).getD 600
    ∧ resolve_factor c
      = (c.backoff_strategies.findSome? (fun s => s.factor)).getD 5
    ∧ resolved_max_tries c = (max (resolve_max_retries c) 0).toNat + 1 := by
  refine ⟨?_, ?_, ?_, ?_⟩
  · unfold resolve_max_retries
    rw [firstStrategyMaxRetries_eq]
    cases c.error_handler.max_retries <;>
      cases h : c.backoff_strategies.findSome? (fun s => s.max_retries) <;>
        simp [Option.orElse, DEFAULT_MAX_RETRY, h]
  · unfold resolve_max_time
    rw [firstStrategyMaxTime_eq]
    cases c.error_handler.max_time <;>
      cases h : c.backoff_strategies.findSome? (fun s => s.max_time) <;>
        simp [Option.orElse, DEFAULT_MAX_TIME, h]
  · unfold resolve_factor
    rw [firstStrategyFactor_eq]
    cases h : c.backoff_strategies.findSome? (fun s => s.factor) <;>
      simp [Option.getD, DEFAULT_RETRY_FACTOR, h]
  · simp [resolved_max_tries, max_comm]

lemma runRetries_attempts_le (c : HttpClient) (reqId : Nat) (req : PRequest)
    (maxTries : Nat) (maxTime factor : Int) :
    ∀ (outcomes : List TransportOutcome) (attempt : Nat) (slept : Int) (st : AttemptMap),
      attempt ≤ maxTries →
      (runRetries c reqId req maxTries maxTime factor attempt slept st outcomes).attempts
        ≤ maxTries + 1 - attempt := by
  intro outcomes
  induction outcomes with
  | nil =>
    intro attempt slept st h
    simp [runRetries]
  | cons o rest ih =>
    intro attempt slept st h
    simp only [runRetries]
    cases hres : (send_one c st reqId req o).result with
    | ok r => simp; omega
    | failTerminal internal hm ft => simp; omega
    | httpError s b => simp; omega
    | retryUser d m ft =>
      by_cases hc : attempt = maxTries ∨ maxTime < slept + d
      · simp [hc]; omega
      · simp only [hc, if_false]
        have hih := ih (attempt + 1) (slept + d) (send_one c st reqId req o).state
          (by omega)
        omega
    | retryDefault m ft =>
      by_cases hc : attempt = maxTries ∨ maxTime < slept + (factor * 2 ^ (attempt - 1))
      · simp [hc]; omega
      · simp only [hc, if_false]
        have hih := ih (attempt + 1) (slept + factor * 2 ^ (attempt - 1))
          (send_one c st reqId req o).state (by omega)
        omega

/-- C1: one call to `send_request` performs at most `max_retries + 1`
network attempts for its logical request: the executor computes
`max_tries = max(0, max_retries) + 1` and the retry loop never makes more
attempts than that. -/
theorem c1_attempts_bounded (c : HttpClient) (st : AttemptMap) (reqId : Nat)
    (http_method url : String) (headers params : Option (List (String × String)))
    (json data : Option Body) (dedupe : Bool) (outcomes : List TransportOutcome) :
    (send_request c st reqId http_method url headers params json data dedupe
        outcomes).attempts ≤ resolved_max_tries c
    ∧ resolved_max_tries c = (max (resolve_max_retries c) 0).toNat + 1 := by
  constructor
  · unfold send_request
    cases hprep : create_prepared_request http_method url dedupe headers params json data with
    | error e => simp
    | ok req =>
      simp only []
      have h := runRetries_attempts_le c reqId req (resolved_max_tries c)
        (resolve_max_time c) (resolve_factor c) outcomes 1 0 st
        (by unfold resolved_max_tries; omega)
      unfold send_with_retry
      omega
  · simp [resolved_max_tries, max_comm]

lemma lookupCount_mapBump (l : AttemptMap) (id j : Nat) :
    lookupCount (l.map (fun kv => if kv.1 = id then (kv.1, kv.2 + 1) else kv)) j
      = if j = id then (lookupCount l id).map (· + 1) else lookupCount l j := by
  induction l with
  | nil => by_cases hj : j = id <;> simp [lookupCount, hj]
  | cons kv rest ih =>
    obtain ⟨k, v⟩ := kv
    by_cases hk : k = id <;> by_cases hj : j = id <;>
      (simp [lookupCount, hk, hj, ih, Ne.symm]; try simp_all [Ne.symm])

lemma bump_cons_ne (k v : Nat) (rest : AttemptMap) (id : Nat) (h : ¬ k = id) :
    bump ((k, v) :: rest) id = (k, v) :: bump rest id := by
  unfold bump
  simp only [lookupCount, h, if_false]
  cases hr : lookupCount rest id <;> simp [h]

lemma lookupCount_bump (st : AttemptMap) (id j : Nat) :
    lookupCount (bump st id) j
      = if j = id then some (countAfter st id) else lookupCount st j := by
  induction st with
  | nil =>
    by_cases hj : j = id
    · simp [bump, lookupCount, countAfter, hj]
    · simp [bump, lookupCount, countAfter, hj, Ne.symm hj]
  | cons kv rest ih =>
    obtain ⟨k, v⟩ := kv
    by_cases hk : k = id
    · have hb : bump ((k, v) :: rest) id
          = (k, v + 1) :: rest.map (fun kv => if kv.1 = id then (kv.1, kv.2 + 1) else kv) := by
        simp [bump, lookupCount, hk]
      rw [hb]
      by_cases hj : j = id
      · simp [lookupCount, countAfter, hk, hj]
      · simp [lookupCount, countAfter, hk, hj, lookupCount_mapBump, Ne.symm hj]
    · rw [bump_cons_ne k v rest id hk]
      by_cases hj : j = id
      · subst hj
        simp [lookupCount, hk, ih, countAfter]
      · by_cases hkj : k = j <;> simp [lookupCount, hkj, ih, hj]

lemma lookupCount_bumpIter_ne (id j : Nat) (hj : ¬ j = id) :
    ∀ (n : Nat) (st : AttemptMap),
      lookupCount ((fun s => bump s id)^[n] st) j = lookupCount st j := by
  intro n
  induction n with
  | zero => intro st; simp
  | succ n ih =>
    intro st
    rw [Function.iterate_succ_apply, ih (bump st id), lookupCount_bump]
    simp [hj]

lemma lookupCount_bumpIter_some (id : Nat) :
    ∀ (n : Nat) (st : AttemptMap) (v : Nat), lookupCount st id = some v →
      lookupCount ((fun s => bump s id)^[n] st) id = some (v + n) := by
  intro n
  induction n with
  | zero => intro st v h; simpa using h
  | succ n ih =>
    intro st v h
    rw [Function.iterate_succ_apply]
    have hb : lookupCount (bump st id) id = some (v + 1) := by
      rw [lookupCount_bump]
      simp [countAfter, h]
    rw [ih (bump st id) (v + 1) hb]
    congr 1
    omega

lemma lookupCount_bumpIter_none (id : Nat) (n : Nat) (st : AttemptMap)
    (h : lookupCount st id = none) :
    lookupCount ((fun s => bump s id)^[n] st) id
      = if n = 0 then none else some n := by
  cases n with
  | zero => simpa using h
  | succ m =>
    rw [Function.iterate_succ_apply]
    have hb : lookupCount (bump st id) id = some 1 := by
      rw [lookupCount_bump]
      simp [countAfter, h]
    rw [lookupCount_bumpIter_some id m (bump st id) 1 hb]
    simp [Nat.add_comm]

lemma send_one_state (c : HttpClient) (st : AttemptMap) (reqId : Nat)
    (req : PRequest) (o : TransportOutcome) :
    (send_one c st reqId req o).state = bump st reqId := rfl

lemma runRetries_state (c : HttpClient) (reqId : Nat) (req : PRequest)
    (maxTries : Nat) (maxTime factor : Int) :
    ∀ (outcomes : List TransportOutcome) (attempt : Nat) (slept : Int) (st : AttemptMap),
      (runRetries c reqId req maxTries maxTime factor attempt slept st outcomes).state
        = (fun s => bump s reqId)^[(runRetries c reqId req maxTries maxTime factor
            attempt slept st outcomes).attempts] st := by
  intro outcomes
  induction outcomes with
  | nil => intro attempt slept st; simp [runRetries]
  | cons o rest ih =>
    intro attempt slept st
    simp only [runRetries]
    cases hres : (send_one c st reqId req o).result with
    | ok r => simp [send_one_state]
    | failTerminal internal hm ft => simp [send_one_state]
    | httpError s b => simp [send_one_state]
    | retryUser d m ft =>
      by_cases hc : attempt = maxTries ∨ maxTime < slept + d
      · simp [hc, send_one_state]
      · simp only [hc, if_false]
        rw [ih (attempt + 1) (slept + d) (send_one c st reqId req o).state]
        rw [send_one_state, ← Function.iterate_succ_apply]
    | retryDefault m ft =>
      by_cases hc : attempt = maxTries ∨ maxTime < slept + (factor * 2 ^ (attempt - 1))
      · simp [hc, send_one_state]
      · simp only [hc, if_false]
        rw [ih (attempt + 1) (slept + factor * 2 ^ (attempt - 1))
          (send_one c st reqId req o).state]
        rw [send_one_state, ← Function.iterate_succ_apply]

/-- C3 counterexample: the per-request retry state is not discarded when
the logical request completes — after a successful one-attempt
`send_request` starting from an empty instance map, the attempt count is
still stored in the instance-level keyed map. -/
theorem c3_counterexample :
    (send_request basicClient [] 0 "GET" "http://x" none none none none false
        [Sum.inl ⟨200, "fine"⟩]).state = [(0, 1)]
    ∧ lookupCount (send_request basicClient [] 0 "GET" "http://x" none none none none
        false [Sum.inl ⟨200, "fine"⟩]).state 0 = some 1 := by
  constructor <;> decide

/-- C3 (amended): the attempt count lives in an instance-level map keyed
by the prepared-request identity and persists after the logical request
completes: a call to `send_request` that makes `n` network attempts adds
`n` to the stored count for its request id (creating the entry at its
first attempt) and leaves every other key untouched; nothing is ever
removed. -/
theorem c3_attempt_map_persistence (c : HttpClient) (st : AttemptMap) (reqId : Nat)
    (http_method url : String) (headers params : Option (List (String × String)))
    (json data : Option Body) (dedupe : Bool) (outcomes : List TransportOutcome)
    (j : Nat) :
    lookupCount (send_request c st reqId http_method url headers params json data
        dedupe outcomes).state j
      = if j = reqId then
          (match lookupCount st reqId,
             (send_request c st reqId http_method url headers params json data
               dedupe outcomes).attempts with
           | x, 0 => x
           | none, Nat.succ m => some (m + 1)
           | some v, Nat.succ m => some (v + (m + 1)))
        else lookupCount st j := by
  unfold send_request
  cases hprep : create_prepared_request http_method url dedupe headers params json data with
  | error e =>
    by_cases hj : j = reqId
    · subst hj
      simp only []
      cases hst : lookupCount st j <;> simp [hst]
    · simp [hj]
  | ok req =>
    simp only [send_with_retry]
    rw [runRetries_state]
    by_cases hj : j = reqId
    · subst hj
      simp only [if_pos rfl]
      cases hst : lookupCount st j with
      | none =>
        rw [lookupCount_bumpIter_none j _ st hst]
        cases hn : (runRetries c j req (resolved_max_tries c) (resolve_max_time c)
            (resolve_factor c) 1 0 st outcomes).attempts <;> simp
      | some v =>
        rw [lookupCount_bumpIter_some j _ st v hst]
        cases hn : (runRetries c j req (resolved_max_tries c) (resolve_max_time c)
            (resolve_factor c) 1 0 st outcomes).attempts <;> simp
    · rw [lookupCount_bumpIter_ne reqId j hj]
      simp [hj]

/-- C2 counterexample: for a method outside `BODY_REQUEST_METHODS` (here
DELETE), supplying both a structured and a raw body does not fail: both
bodies are silently dropped, the request is prepared, and a network
attempt is made. -/
theorem c2_counterexample :
    send_request basicClient [] 0 "DELETE" "http://x" none none
        (some [("a", "b")]) (some [("c", "d")]) false [Sum.inl ⟨200, "fine"⟩]
      = ⟨Except.ok (⟨"DELETE", "http://x", none, [], none, none⟩,
          LoopResult.success (some ⟨200, "fine"⟩)), [(0, 1)], 1, []⟩ := by
  decide

/-- C2 (amended): when the uppercased method is one of GET/POST/PUT/PATCH
and both a (truthy) structured body and a (truthy) raw body are supplied,
`send_request` raises `RequestBodyException` before any network attempt
and the attempt state is untouched; for other methods no such error is
raised. -/
theorem c2_both_bodies_config_error (c : HttpClient) (st : AttemptMap) (reqId : Nat)
    (http_method url : String) (headers params : Option (List (String × String)))
    (json data : Option Body) (dedupe : Bool) (outcomes : List TransportOutcome)
    (hm : pyUpper http_method ∈ BODY_REQUEST_METHODS)
    (hj : pyTruthy json = true) (hd : pyTruthy data = true) :
    send_request c st reqId http_method url headers params json data dedupe outcomes
      = ⟨Except.error PrepareError.requestBody, st, 0, []⟩ := by
  unfold send_request create_prepared_request
  simp [hm, hj, hd]

theorem c2_both_bodies_config_error_witness :
    send_request basicClient [] 0 "POST" "http://x" none none
        (some [("a", "b")]) (some [("c", "d")]) false [Sum.inl ⟨200, "fine"⟩]
      = ⟨Except.error PrepareError.requestBody, [], 0, []⟩ :=
  c2_both_bodies_config_error basicClient [] 0 "POST" "http://x" none none
    (some [("a", "b")]) (some [("c", "d")]) false [Sum.inl ⟨200, "fine"⟩]
    (by decide) (by decide) (by decide)

lemma lookup1_filter (l : List (String × String)) (q : String → Bool) (k : String) :
    lookup1 (l.filter (fun kv => q kv.1)) k = if q k then lookup1 l k else none := by
  induction l with
  | nil => by_cases h : q k <;> simp [lookup1, h]
  | cons kv rest ih =>
    obtain ⟨a, b⟩ := kv
    by_cases ha : a = k
    · subst ha
      by_cases hq : q a <;> simp [List.filter_cons, lookup1, hq, ih]
    · by_cases hq : q a <;> by_cases hqk : q k <;>
        simp [List.filter_cons, lookup1, hq, hqk, ha, ih]

/-- C6: with dedupe enabled, a key of `params` is dropped exactly when the
URL query string records the same (string) value for it; a key present in
both with a different value is kept, and the scenario
`params={a:1}`, URL `http://x/?a=1` yields a prepared request with no
separate `a` parameter. -/
theorem c6_dedupe_query_params :
    (∀ (url : String) (params : List (String × String)) (k : String),
      lookup1 (dedupe_query_params url (some params)) k
        = (match lookup1 (parse_qsl (urlQuery url)) k with
           | some w =>
             if pyStrOpt (lookup1 params k) = w then none else lookup1 params k
           | none => lookup1 params k))
    ∧ dedupe_query_params "http://x/?a=1" (some [("a", "1")]) = []
    ∧ create_prepared_request "GET" "http://x/?a=1" true none (some [("a", "1")]) none none
        = Except.ok ⟨"GET", "http://x/?a=1", none, [], none, none⟩ := by
  refine ⟨?_, by decide, by decide⟩
  intro url params k
  have hfilter : dedupe_query_params url (some params)
      = params.filter (fun kv =>
          match lookup1 (parse_qsl (urlQuery url)) kv.1 with
          | some w => !(pyStrOpt (lookup1 params kv.1) = w : Bool)
          | none => true) := rfl
  rw [hfilter, lookup1_filter params (fun k2 =>
      match lookup1 (parse_qsl (urlQuery url)) k2 with
      | some w => !(pyStrOpt (lookup1 params k2) = w : Bool)
      | none => true) k]
  cases hq : lookup1 (parse_qsl (urlQuery url)) k with
  | none => simp [hq]
  | some w => by_cases he : pyStrOpt (lookup1 params k) = w <;> simp [hq, he]

/-! ### Backoff selection lemmas -/

lemma chooseCustomBackoff_cons_none (s : BackoffStrategy) (rest : List BackoffStrategy)
    (oe : TransportOutcome) (n : Nat) (h : s.backoff_time oe n = none) :
    chooseCustomBackoff (s :: rest) oe n = chooseCustomBackoff rest oe n := by
  simp [chooseCustomBackoff, h]

lemma chooseCustomBackoff_cons_zero (s : BackoffStrategy) (rest : List BackoffStrategy)
    (oe : TransportOutcome) (n : Nat) (h : s.backoff_time oe n = some 0) :
    chooseCustomBackoff (s :: rest) oe n = chooseCustomBackoff rest oe n := by
  simp [chooseCustomBackoff, h]

lemma chooseCustomBackoff_falsy (oe : TransportOutcome) (n : Nat) :
    ∀ (l : List BackoffStrategy),
      (∀ p ∈ l, p.backoff_time oe n = none ∨ p.backoff_time oe n = some 0) →
      chooseCustomBackoff l oe n = none := by
  intro l
  induction l with
  | nil => intro _; rfl
  | cons s rest ih =>
    intro h
    rcases h s (List.mem_cons_self s rest) with hn | hz
    · rw [chooseCustomBackoff_cons_none s rest oe n hn]
      exact ih (fun p hp => h p (List.mem_cons_of_mem s hp))
    · rw [chooseCustomBackoff_cons_zero s rest oe n hz]
      exact ih (fun p hp => h p (List.mem_cons_of_mem s hp))

lemma chooseCustomBackoff_first (oe : TransportOutcome) (n : Nat) :
    ∀ (pre : List BackoffStrategy) (s : BackoffStrategy) (rest : List BackoffStrategy)
      (d : Int),
      (∀ p ∈ pre, p.backoff_time oe n = none ∨ p.backoff_time oe n = some 0) →
      s.backoff_time oe n = some d → d ≠ 0 →
      chooseCustomBackoff (pre ++ s :: rest) oe n = some d := by
  intro pre
  induction pre with
  | nil =>
    intro s rest d _ hs hd
    simp [chooseCustomBackoff, hs, hd]
  | cons p pre2 ih =>
    intro s rest d hpre hs hd
    rcases hpre p (List.mem_cons_self p pre2) with hn | hz
    · rw [List.cons_append, chooseCustomBackoff_cons_none p _ oe n hn]
      exact ih s rest d (fun p2 hp2 => hpre p2 (List.mem_cons_of_mem p hp2)) hs hd
    · rw [List.cons_append, chooseCustomBackoff_cons_zero p _ oe n hz]
      exact ih s rest d (fun p2 hp2 => hpre p2 (List.mem_cons_of_mem p hp2)) hs hd

/-- The RETRY branch of `_send`: the strategies are consulted with the
outcome and the updated attempt count, and the first truthy delay becomes
a `UserDefinedBackoffException`, else a `DefaultBackoffException`. -/
lemma send_one_result_retry (c : HttpClient) (st : AttemptMap) (reqId : Nat)
    (req : PRequest) (o : TransportOutcome)
    (h : (c.error_handler.interpret_response o).response_action = ResponseAction.RETRY) :
    (send_one c st reqId req o).result
      = match chooseCustomBackoff c.backoff_strategies o (countAfter st reqId) with
        | some d => SendResult.retryUser d
            (effectiveMessage (c.error_handler.interpret_response o).error_message
              (ErrMsg.retryGeneric req.url
                (c.error_handler.interpret_response o).failure_type))
            (c.error_handler.interpret_response o).failure_type
        | none => SendResult.retryDefault
            (effectiveMessage (c.error_handler.interpret_response o).error_message
              (ErrMsg.retryGeneric req.url
                (c.error_handler.interpret_response o).failure_type))
            (c.error_handler.interpret_response o).failure_type := by
  unfold send_one
  simp only [h]
  cases hc : chooseCustomBackoff c.backoff_strategies o (countAfter st reqId) <;>
    simp [hc]

lemma runRetries_sleep_user (c : HttpClient) (reqId : Nat) (req : PRequest)
    (mt : Nat) (mT f : Int) (attempt : Nat) (slept : Int) (st : AttemptMap)
    (o : TransportOutcome) (rest : List TransportOutcome) (d : Int)
    (m : Sum String ErrMsg) (ft : Option FailureType)
    (hres : (send_one c st reqId req o).result = SendResult.retryUser d m ft)
    (hcap : ¬(attempt = mt ∨ mT < slept + d)) :
    (runRetries c reqId req mt mT f attempt slept st (o :: rest)).sleeps
      = d :: (runRetries c reqId req mt mT f (attempt + 1) (slept + d)
          (bump st reqId) rest).sleeps := by
  simp only [runRetries, hres, hcap, if_false, send_one_state]

lemma runRetries_sleep_default (c : HttpClient) (reqId : Nat) (req : PRequest)
    (mt : Nat) (mT f : Int) (attempt : Nat) (slept : Int) (st : AttemptMap)
    (o : TransportOutcome) (rest : List TransportOutcome)
    (m : Sum String ErrMsg) (ft : Option FailureType)
    (hres : (send_one c st reqId req o).result = SendResult.retryDefault m ft)
    (hcap : ¬(attempt = mt ∨ mT < slept + f * 2 ^ (attempt - 1))) :
    (runRetries c reqId req mt mT f attempt slept st (o :: rest)).sleeps
      = (f * 2 ^ (attempt - 1)) :: (runRetries c reqId req mt mT f (attempt + 1)
          (slept + f * 2 ^ (attempt - 1)) (bump st reqId) rest).sleeps := by
  simp only [runRetries, hres, hcap, if_false, send_one_state]

/-- C5: on a RETRY outcome the backoff strategies are queried in declared
order with the outcome and current attempt count; the first truthy delay
determines the sleep before the next attempt, and if none yields a delay
the executor falls back to the exponential `factor * 2^(attempt-1)`. -/
theorem c5_backoff_order :
    (∀ (oe : TransportOutcome) (n : Nat) (pre : List BackoffStrategy)
        (s : BackoffStrategy) (rest : List BackoffStrategy) (d : Int),
      (∀ p ∈ pre, p.backoff_time oe n = none ∨ p.backoff_time oe n = some 0) →
      s.backoff_time oe n = some d → d ≠ 0 →
      chooseCustomBackoff (pre ++ s :: rest) oe n = some d)
    ∧ (∀ (c : HttpClient) (st : AttemptMap) (reqId : Nat) (req : PRequest)
        (o : TransportOutcome),
      (c.error_handler.interpret_response o).response_action = ResponseAction.RETRY →
      (send_one c st reqId req o).result
        = match chooseCustomBackoff c.backoff_strategies o (countAfter st reqId) with
          | some d => SendResult.retryUser d
              (effectiveMessage (c.error_handler.interpret_response o).error_message
                (ErrMsg.retryGeneric req.url
                  (c.error_handler.interpret_response o).failure_type))
              (c.error_handler.interpret_response o).failure_type
          | none => SendResult.retryDefault
              (effectiveMessage (c.error_handler.interpret_response o).error_message
                (ErrMsg.retryGeneric req.url
                  (c.error_handler.interpret_response o).failure_type))
              (c.error_handler.interpret_response o).failure_type)
    ∧ (∀ (c : HttpClient) (reqId : Nat) (req : PRequest) (mt : Nat) (mT f : Int)
        (attempt : Nat) (slept : Int) (st : AttemptMap) (o : TransportOutcome)
        (rest : List TransportOutcome) (d : Int) (m : Sum String ErrMsg)
        (ft : Option FailureType),
      (send_one c st reqId req o).result = SendResult.retryUser d m ft →
      ¬(attempt = mt ∨ mT < slept + d) →
      (runRetries c reqId req mt mT f attempt slept st (o :: rest)).sleeps
        = d :: (runRetries c reqId req mt mT f (attempt + 1) (slept + d)
            (bump st reqId) rest).sleeps)
    ∧ (∀ (c : HttpClient) (reqId : Nat) (req : PRequest) (mt : Nat) (mT f : Int)
        (attempt : Nat) (slept : Int) (st : AttemptMap) (o : TransportOutcome)
        (rest : List TransportOutcome) (m : Sum String ErrMsg)
        (ft : Option FailureType),
      (send_one c st reqId req o).result = SendResult.retryDefault m ft →
      ¬(attempt = mt ∨ mT < slept + f * 2 ^ (attempt - 1)) →
      (runRetries c reqId req mt mT f attempt slept st (o :: rest)).sleeps
        = (f * 2 ^ (attempt - 1)) :: (runRetries c reqId req mt mT f (attempt + 1)
            (slept + f * 2 ^ (attempt - 1)) (bump st reqId) rest).sleeps) :=
  ⟨fun oe n pre s rest d hpre hs hd => chooseCustomBackoff_first oe n pre s rest d hpre hs hd,
   fun c st reqId req o h => send_one_result_retry c st reqId req o h,
   fun c reqId req mt mT f attempt slept st o rest d m ft hres hcap =>
     runRetries_sleep_user c reqId req mt mT f attempt slept st o rest d m ft hres hcap,
   fun c reqId req mt mT f attempt slept st o rest m ft hres hcap =>
     runRetries_sleep_default c reqId req mt mT f attempt slept st o rest m ft hres hcap⟩

theorem c5_backoff_order_witness :
    chooseCustomBackoff [strategyNone, strategyTen] (Sum.inl ⟨429, "slow"⟩) 1 = some 10
    ∧ (runRetries twoStrategyClient 0 reqX 6 600 5 1 0 [] [Sum.inl ⟨429, "slow"⟩]).sleeps
      = 10 :: (runRetries twoStrategyClient 0 reqX 6 600 5 2 10 (bump [] 0) []).sleeps := by
  constructor
  · exact c5_backoff_order.1 (Sum.inl ⟨429, "slow"⟩) 1 [strategyNone] strategyTen [] 10
      (by intro p hp; simp at hp; subst hp; left; rfl) rfl (by decide)
  · exact c5_backoff_order.2.2.1 twoStrategyClient 0 reqX 6 600 5 1 0 []
      (Sum.inl ⟨429, "slow"⟩) [] 10
      (Sum.inr (ErrMsg.retryGeneric "http://x" (some FailureType.transient_error)))
      (some FailureType.transient_error) (by decide) (by decide)

/-- C9: a backoff strategy returning 0 is treated exactly like one
returning no delay: selection falls through to later strategies, and when
every strategy returns 0 or `None` the executor raises the default
backoff (exponential `factor * 2^(attempt-1)`) instead of sleeping 0. -/
theorem c9_zero_delay :
    (∀ (oe : TransportOutcome) (n : Nat) (s : BackoffStrategy)
        (rest : List BackoffStrategy),
      s.backoff_time oe n = some 0 →
      chooseCustomBackoff (s :: rest) oe n = chooseCustomBackoff rest oe n)
    ∧ (∀ (c : HttpClient) (st : AttemptMap) (reqId : Nat) (req : PRequest)
        (o : TransportOutcome),
      (c.error_handler.interpret_response o).response_action = ResponseAction.RETRY →
      (∀ p ∈ c.backoff_strategies,
        p.backoff_time o (countAfter st reqId) = none
        ∨ p.backoff_time o (countAfter st reqId) = some 0) →
      ∃ m ft, (send_one c st reqId req o).result = SendResult.retryDefault m ft)
    ∧ (∀ (c : HttpClient) (reqId : Nat) (req : PRequest) (mt : Nat) (mT f : Int)
        (attempt : Nat) (slept : Int) (st : AttemptMap) (o : TransportOutcome)
        (rest : List TransportOutcome) (m : Sum String ErrMsg)
        (ft : Option FailureType),
      (send_one c st reqId req o).result = SendResult.retryDefault m ft →
      ¬(attempt = mt ∨ mT < slept + f * 2 ^ (attempt - 1)) →
      (runRetries c reqId req mt mT f attempt slept st (o :: rest)).sleeps
        = (f * 2 ^ (attempt - 1)) :: (runRetries c reqId req mt mT f (attempt + 1)
            (slept + f * 2 ^ (attempt - 1)) (bump st reqId) rest).sleeps) := by
  refine ⟨fun oe n s rest h => chooseCustomBackoff_cons_zero s rest oe n h, ?_,
    fun c reqId req mt mT f attempt slept st o rest m ft hres hcap =>
      runRetries_sleep_default c reqId req mt mT f attempt slept st o rest m ft hres hcap⟩
  intro c st reqId req o hact hfalsy
  have h := send_one_result_retry c st reqId req o hact
  rw [chooseCustomBackoff_falsy o (countAfter st reqId) c.backoff_strategies hfalsy] at h
  exact ⟨_, _, h⟩

theorem c9_zero_delay_witness :
    chooseCustomBackoff [strategyZero] (Sum.inl ⟨429, "slow"⟩) 1
      = chooseCustomBackoff [] (Sum.inl ⟨429, "slow"⟩) 1
    ∧ (∃ m ft, (send_one zeroStrategyClient [] 0 reqX (Sum.inl ⟨429, "slow"⟩)).result
        = SendResult.retryDefault m ft) := by
  constructor
  · exact c9_zero_delay.1 (Sum.inl ⟨429, "slow"⟩) 1 strategyZero [] rfl
  · exact c9_zero_delay.2.1 zeroStrategyClient [] 0 reqX (Sum.inl ⟨429, "slow"⟩) rfl
      (by intro p hp; simp [zeroStrategyClient] at hp; subst hp; right; rfl)

/-! ### IGNORE and terminal behavior -/

lemma runRetries_first_ok (c : HttpClient) (reqId : Nat) (req : PRequest)
    (mt : Nat) (mT f : Int) (attempt : Nat) (slept : Int) (st : AttemptMap)
    (o : TransportOutcome) (rest : List TransportOutcome) (r? : Option Response)
    (hres : (send_one c st reqId req o).result = SendResult.ok r?) :
    runRetries c reqId req mt mT f attempt slept st (o :: rest)
      = ⟨LoopResult.success r?, bump st reqId, 1, []⟩ := by
  simp only [runRetries, hres, send_one_state]

lemma send_one_result_ignore (c : HttpClient) (st : AttemptMap) (reqId : Nat)
    (req : PRequest) (o : TransportOutcome)
    (h : (c.error_handler.interpret_response o).response_action = ResponseAction.IGNORE) :
    (send_one c st reqId req o).result = SendResult.ok o.getLeft? := by
  unfold send_one
  simp [h]

lemma send_one_ignore_info_log (c : HttpClient) (st : AttemptMap) (reqId : Nat)
    (req : PRequest) (o : TransportOutcome)
    (h : (c.error_handler.interpret_response o).response_action = ResponseAction.IGNORE) :
    ∃ m, (LogLevel.info, LogMsg.msg m) ∈ (send_one c st reqId req o).logs := by
  unfold send_one
  simp [h]

/-- C8: a response classified IGNORE is logged at informational level and
returned unmodified to the caller: the attempt raises no exception and
the retry loop makes no further attempt. -/
theorem c8_ignore_returns_response (c : HttpClient) (st : AttemptMap) (reqId : Nat)
    (req : PRequest) (r : Response) (mt : Nat) (mT f : Int) (attempt : Nat)
    (slept : Int) (rest : List TransportOutcome)
    (h : (c.error_handler.interpret_response (Sum.inl r)).response_action
      = ResponseAction.IGNORE) :
    (send_one c st reqId req (Sum.inl r)).result = SendResult.ok (some r)
    ∧ (∃ m, (LogLevel.info, LogMsg.msg m) ∈ (send_one c st reqId req (Sum.inl r)).logs)
    ∧ runRetries c reqId req mt mT f attempt slept st (Sum.inl r :: rest)
        = ⟨LoopResult.success (some r), bump st reqId, 1, []⟩ := by
  have h1 := send_one_result_ignore c st reqId req (Sum.inl r) h
  exact ⟨h1, send_one_ignore_info_log c st reqId req (Sum.inl r) h,
    runRetries_first_ok c reqId req mt mT f attempt slept st (Sum.inl r) rest (some r) h1⟩

theorem c8_ignore_returns_response_witness :
    (send_one ignoreClient [] 0 reqX (Sum.inl ⟨503, "oops"⟩)).result
      = SendResult.ok (some ⟨503, "oops"⟩)
    ∧ (∃ m, (LogLevel.info, LogMsg.msg m)
        ∈ (send_one ignoreClient [] 0 reqX (Sum.inl ⟨503, "oops"⟩)).logs)
    ∧ runRetries ignoreClient 0 reqX 6 600 5 1 0 [] [Sum.inl ⟨503, "oops"⟩]
        = ⟨LoopResult.success (some ⟨503, "oops"⟩), bump [] 0, 1, []⟩ :=
  c8_ignore_returns_response ignoreClient [] 0 reqX ⟨503, "oops"⟩ 6 600 5 1 0 [] rfl

/-- C10: when the transport raises (no response exists) and the handler
classifies the outcome IGNORE, `_send` returns `None` instead of a
response, and `send_request` hands the caller a `(request, None)` pair
despite its declared return type. -/
theorem c10_ignored_exception_returns_none (c : HttpClient) (st : AttemptMap)
    (reqId : Nat) (req : PRequest) (e : String) (mt : Nat) (mT f : Int)
    (attempt : Nat) (slept : Int) (rest : List TransportOutcome)
    (h : (c.error_handler.interpret_response (Sum.inr e)).response_action
      = ResponseAction.IGNORE) :
    (send_one c st reqId req (Sum.inr e)).result = SendResult.ok none
    ∧ runRetries c reqId req mt mT f attempt slept st (Sum.inr e :: rest)
        = ⟨LoopResult.success none, bump st reqId, 1, []⟩
    ∧ (∀ (http_method url : String) (headers params : Option (List (String × String)))
        (json data : Option Body) (dedupe : Bool),
      create_prepared_request http_method url dedupe headers params json data
        = Except.ok req →
      (send_request c st reqId http_method url headers params json data dedupe
          (Sum.inr e :: rest)).result = Except.ok (req, LoopResult.success none)) := by
  have h1 : (send_one c st reqId req (Sum.inr e)).result = SendResult.ok none :=
    send_one_result_ignore c st reqId req (Sum.inr e) h
  refine ⟨h1, runRetries_first_ok c reqId req mt mT f attempt slept st (Sum.inr e)
    rest none h1, ?_⟩
  intro http_method url headers params json data dedupe hprep
  simp only [send_request, hprep, send_with_retry]
  rw [runRetries_first_ok c reqId req (resolved_max_tries c) (resolve_max_time c)
    (resolve_factor c) 1 0 st (Sum.inr e) rest none h1]

theorem c10_ignored_exception_returns_none_witness :
    (send_one ignoreClient [] 0 reqX (Sum.inr "boom")).result = SendResult.ok none
    ∧ (send_request ignoreClient [] 0 "GET" "http://x" none none none none false
        [Sum.inr "boom"]).result = Except.ok (reqX, LoopResult.success none) := by
  have t := c10_ignored_exception_returns_none ignoreClient [] 0 reqX "boom"
    6 600 5 1 0 [] rfl
  exact ⟨t.1, t.2.2 "GET" "http://x" none none none none false (by decide)⟩

/-- C7 (behavior at the failing input): a FAIL-classified response with
status 404 takes the exception branch of the message construction —
because `if response:` tests `requests.Response` truthiness (status < 400)
rather than existence — so the terminal error carries neither the status
nor the parser-derived body message but the text of the absent transport
exception; only a status < 400 response yields the status-and-parsed
message the claim describes. -/
theorem c7_fail_message_truthiness :
    (send_one failClient [] 0 reqX (Sum.inl ⟨404, "parsed detail"⟩)).result
      = SendResult.failTerminal (ErrMsg.failExc "GET" "http://x" none) none
          (some FailureType.system_error)
    ∧ (send_one failClient [] 0 reqX (Sum.inl ⟨399, "parsed detail"⟩)).result
      = SendResult.failTerminal
          (ErrMsg.failStatus "GET" "http://x" 399 "parsed detail") none
          (some FailureType.system_error) := by
  constructor <;> decide

end HttpClientModel
